import Mathlib

/-!
# Gmail-Sync: verified model of `calendar_sync.py`

A shallow embedding of the synchronization logic of `CalendarSync`
(`src/calendar_sync.py`): event keys (`create_event_key`), the outbound
payload built in `sync_calendars`, the existing-events mapping
(`get_existing_events`), the per-event create/update/skip decision, the
write loop, and the configuration loader (`load_config`).

Python dictionaries of JSON values are embedded as Lean structures whose
optional keys are `Option`-typed fields; `dict.get(k, d)` becomes
`Option.getD` / `Option.orElse`.  Remote failures are embedded as
explicit `Except` values, and the success of each outbound write as a
boolean oracle indexed by the event's position in the plan.
-/

namespace GmailSync

/-- The `start` / `end` sub-dictionary of a Google Calendar event:
optional `dateTime`, `date` and `timeZone` keys. -/
structure GTime where
  dateTime : Option String
  date : Option String
  timeZone : Option String
deriving Repr, DecidableEq

/-- A Google Calendar event as consumed by `sync_calendars`:
`id`, `summary`, `description` and `location` are optional keys,
`start` and `end` are sub-dictionaries. -/
structure GEvent where
  id : Option String
  summary : Option String
  start : GTime
  end_ : GTime
  description : Option String
  location : Option String
deriving Repr, DecidableEq

/-- The `start` / `end` sub-dictionary of an O365 (Microsoft Graph)
event returned by `$select=...start,end...`: `dateTime` is always
present in a Graph response, `timeZone` may accompany it. -/
structure OTime where
  dateTime : String
  timeZone : Option String
deriving Repr, DecidableEq

/-- The `location` sub-dictionary of a Graph event. -/
structure OLocation where
  displayName : String
deriving Repr, DecidableEq

/-- The `body` sub-dictionary of a Graph event. -/
structure OBody where
  contentType : String
  content : String
deriving Repr, DecidableEq

/-- An existing O365 event as returned by the Graph read in
`get_existing_events` (`$select` of id, subject, start, end, body,
location). -/
structure OEvent where
  id : String
  subject : String
  start : OTime
  end_ : OTime
  body : Option OBody
  location : Option OLocation
deriving Repr, DecidableEq

/-- The `start`/`end` of the outbound O365 payload built in
`sync_calendars`: `dateTime` is whatever
`event['start'].get('dateTime', event['start'].get('date'))` produced
(possibly `None`), `timeZone` is always set. -/
structure PTime where
  dateTime : Option String
  timeZone : String
deriving Repr, DecidableEq

/-- The `body` of the outbound payload. -/
structure PBody where
  contentType : String
  content : String
deriving Repr, DecidableEq

/-- The `location` of the outbound payload. -/
structure PLocation where
  displayName : String
deriving Repr, DecidableEq

/-- The outbound O365 event payload (`o365_event` in `sync_calendars`):
`subject`, `start`, `end` always present; `body` and `location` present
only when the source event has `description` / `location`. -/
structure OPayload where
  subject : String
  start : PTime
  end_ : PTime
  body : Option PBody
  location : Option PLocation
deriving Repr, DecidableEq

/-- Python's `event['start'].get('dateTime', event['start'].get('date'))`:
the `dateTime` value when present, else the `date` value, else `None`. -/
def GTime.startValue (t : GTime) : Option String :=
  t.dateTime.orElse fun _ => t.date

/-- Python string interpolation of a possibly-`None` value:
`f"..{x}.."` renders `None` as the string `"None"`. -/
def pyStr : Option String → String
  | some s => s
  | none => "None"

/-- Embeds `CalendarSync.create_event_key` on a Google event
(`is_google=True` branch): `f"{event_id}_{start_time}"` where
`event_id = event.get('id', '')` and `start_time` is the
`dateTime`-else-`date` value. -/
def create_event_key (e : GEvent) : String :=
  (e.id.getD "") ++ "_" ++ pyStr e.start.startValue

/-- Embeds `CalendarSync.create_event_key` on an O365 event
(`is_google=False` branch): identical formula; a Graph event's `start`
always carries `dateTime`, so the key is `f"{id}_{start.dateTime}"`. -/
def create_event_key_o365 (e : OEvent) : String :=
  e.id ++ "_" ++ e.start.dateTime

/-- The outbound payload built for one source event in `sync_calendars`
(lines 330–358): subject from `summary` (default `'No Title'`),
start/end `dateTime` from `dateTime`-else-`date`, `timeZone` default
`'UTC'`, `body` added only when `description` present, `location` only
when `location` present. -/
def buildPayload (e : GEvent) : OPayload :=
  { subject := e.summary.getD "No Title"
    start := { dateTime := e.start.startValue
               timeZone := e.start.timeZone.getD "UTC" }
    end_ := { dateTime := e.end_.startValue
              timeZone := e.end_.timeZone.getD "UTC" }
    body := e.description.map fun d => { contentType := "text", content := d }
    location := e.location.map fun l => { displayName := l } }

/-- The `needs_update` predicate of `sync_calendars` (lines 370–376):
subject, start `dateTime`, end `dateTime` compared against the payload
(the existing event's string compared against the payload's
possibly-`None` value), and the location clause — triggered only when
the payload carries a location, and then by the existing event lacking
one or carrying a different display name. -/
def needs_update (existing : OEvent) (event_summary : String)
    (p : OPayload) : Bool :=
  existing.subject ≠ event_summary ||
  some existing.start.dateTime ≠ p.start.dateTime ||
  some existing.end_.dateTime ≠ p.end_.dateTime ||
  (match p.location, existing.location with
   | some pl, some el => el.displayName ≠ pl.displayName
   | some _, none => true
   | none, _ => false)

/-- The action `sync_calendars` takes for one source event. -/
inductive SyncAction where
  | create (payload : OPayload)
  | update (targetId : String) (payload : OPayload)
  | skip
deriving Repr, DecidableEq

/-- Whether an action is an UPDATE. -/
def SyncAction.isUpdate : SyncAction → Bool
  | .update _ _ => true
  | _ => false

/-- Whether an action is a CREATE. -/
def SyncAction.isCreate : SyncAction → Bool
  | .create _ => true
  | _ => false

/-- The existing-events dictionary: association list keyed by event key;
`dictInsert` mirrors `events_dict[key] = event` (a later binding for the
same key shadows an earlier one on lookup). -/
def EventDict := List (String × OEvent)

/-- Python's `events_dict[key] = event`. -/
def dictInsert (m : EventDict) (k : String) (v : OEvent) : EventDict :=
  (k, v) :: m

/-- Python's `key in events_dict` / `events_dict[key]` as one lookup. -/
def dictLookup (m : EventDict) (k : String) : Option OEvent :=
  List.lookup k m

/-- The dictionary built by `get_existing_events` from a successful
Graph response: `for event in value: events_dict[key(event)] = event`. -/
def buildEventDict (events : List OEvent) : EventDict :=
  events.foldl (fun m ev => dictInsert m (create_event_key_o365 ev) ev) []

/-- Embeds `CalendarSync.get_existing_events`: on a successful destination
read, the keyed dictionary of the returned events; on any failure the
exception is caught, logged, and the function returns `{}`. -/
def get_existing_events (fetch : Except String (List OEvent)) : EventDict :=
  match fetch with
  | .ok events => buildEventDict events
  | .error _ => []

/-- The per-event decision of `sync_calendars` (lines 366–395):
key absent → CREATE the payload; key present → UPDATE (addressed to the
existing event's id) when `needs_update` holds, else SKIP. -/
def decideEvent (existing : EventDict) (e : GEvent) : SyncAction :=
  let event_key := create_event_key e
  let event_summary := (e.summary.getD "No Title")
  let p := buildPayload e
  match dictLookup existing event_key with
  | some existing_event =>
      if needs_update existing_event event_summary p then
        .update existing_event.id p
      else
        .skip
  | none => .create p

/-- The outcome of the per-event `try` block around the remote call:
SKIP issues no call (vacuously successful); CREATE and UPDATE issue one
call whose success is `ok` (a raised failure is caught and logged). -/
def attemptWrite (a : SyncAction) (ok : Bool) : Bool :=
  match a with
  | .skip => true
  | _ => ok

/-- The sync loop of `sync_calendars` from position `i` of the plan:
each source event is processed in order; the oracle `writeOk` gives the
success of the remote call issued at each position; a failed call is
caught inside the per-event `try`, and the loop continues with the next
event. -/
def runSyncFrom (existing : EventDict) (writeOk : Nat → Bool) :
    Nat → List GEvent → List (SyncAction × Bool)
  | _, [] => []
  | i, e :: rest =>
      (decideEvent existing e,
        attemptWrite (decideEvent existing e) (writeOk i)) ::
        runSyncFrom existing writeOk (i + 1) rest

/-- The whole sync loop of `sync_calendars`: every source event is
processed, each recording its action and the success of its write (if
any). -/
def runSync (existing : EventDict) (events : List GEvent)
    (writeOk : Nat → Bool) : List (SyncAction × Bool) :=
  runSyncFrom existing writeOk 0 events

/-- The `needs_update` comparison, read as a proposition: the decision
is UPDATE exactly when the subject, the start `dateTime`, or the end
`dateTime` differs from the payload, or the payload carries a location
that the existing event lacks or renders differently. -/
def UpdateTrigger (t : OEvent) (p : OPayload) : Prop :=
  t.subject ≠ p.subject ∨
  some t.start.dateTime ≠ p.start.dateTime ∨
  some t.end_.dateTime ≠ p.end_.dateTime ∨
  (∃ pl, p.location = some pl ∧
     (t.location = none ∨
      ∃ el, t.location = some el ∧ el.displayName ≠ pl.displayName))

/-- The state of the local `config.json` file as `load_config` can
observe it: absent, present but failing to parse
(`json.JSONDecodeError`), or parsed into a dictionary with optional
`gmail_email` / `o365_email` keys. -/
inductive ConfigFile where
  | absent
  | unparsable
  | parsed (gmail_email : Option String) (o365_email : Option String)
deriving Repr, DecidableEq

/-- Embeds `CalendarSync.load_config`: returns the pair
`(gmail_email_default, o365_email_default)`.  Missing file and parse
failure both fall back to `('', '')`; a parsed file contributes
`config.get('gmail_email', '')` and `config.get('o365_email', '')`. -/
def load_config : ConfigFile → String × String
  | .absent => ("", "")
  | .unparsable => ("", "")
  | .parsed g o => (g.getD "", o.getD "")

/-! ## The 30-day window model

The window filtering itself is performed by the two remote calendar
services, which are external to this repository; the repository only
computes the bounds (`now` and `now + timedelta(days=30)`, lines
255–258 and 288–291) and sends them as `timeMin`/`timeMax` resp.
`$filter`.  The services' documented filtering contract is therefore
modelled from the spec, over an abstract time axis in seconds. -/

/-- Modelled from the spec: an event record as the window-filtering
remote reads see it — an id and a start instant on an abstract time
axis (seconds since an epoch). -/
structure TimedEvent where
  id : String
  start : Nat
deriving Repr, DecidableEq

/-- Modelled from the spec: the source provider's events-list endpoint
honours its `timeMin`/`timeMax` parameters — it returns exactly the
stored events whose start instant lies in `[timeMin, timeMax]`. -/
def eventsListRequest (store : List TimedEvent) (timeMin timeMax : Nat) :
    List TimedEvent :=
  store.filter fun e => timeMin ≤ e.start && e.start ≤ timeMax

/-- Modelled from the spec: the destination provider's events endpoint
honours `$filter=start/dateTime ge {lo} and start/dateTime le {hi}`. -/
def graphEventsRequest (store : List TimedEvent) (lo hi : Nat) :
    List TimedEvent :=
  store.filter fun e => lo ≤ e.start && e.start ≤ hi

/-- Python's `timedelta(days=30)`, in seconds. -/
def thirtyDays : Nat := 30 * 24 * 60 * 60

/-- The SyncWindow computed at the start of each run:
`now = datetime.utcnow()`, `end_date = now + timedelta(days=30)`. -/
def syncWindow (now : Nat) : Nat × Nat := (now, now + thirtyDays)

/-- The Source Reader: `events().list(timeMin=now, timeMax=end_date,…)`
with the window bounds of this run. -/
def source_reader (store : List TimedEvent) (now : Nat) : List TimedEvent :=
  eventsListRequest store (syncWindow now).1 (syncWindow now).2

/-- The Target Reader, window view: the Graph read of
`get_existing_events` with `$filter` bound to this run's window, keyed
into a dictionary exactly as `events_dict[key] = event` does. -/
def target_reader (store : List TimedEvent) (now : Nat) :
    List (String × TimedEvent) :=
  (graphEventsRequest store (syncWindow now).1 (syncWindow now).2).foldl
    (fun m e => (e.id ++ "_" ++ toString e.start, e) :: m) []

/-! ## Concrete example data -/

/-- A target event reflecting a prior successful sync of
`sourceStandup` (the spec's §8 example scenario). -/
def syncedTarget : OEvent :=
  { id := "g1", subject := "Standup"
    start := { dateTime := "2024-01-10T09:00:00Z", timeZone := some "UTC" }
    end_ := { dateTime := "2024-01-10T09:30:00Z", timeZone := some "UTC" }
    body := none, location := none }

/-- The source event of the §8 example scenario. -/
def sourceStandup : GEvent :=
  { id := some "g1", summary := some "Standup"
    start := { dateTime := some "2024-01-10T09:00:00Z", date := none
               timeZone := some "UTC" }
    end_ := { dateTime := some "2024-01-10T09:30:00Z", date := none
              timeZone := some "UTC" }
    description := none, location := none }

/-- The event `sourceStandup` with only its start timestamp changed. -/
def movedStandup : GEvent :=
  { sourceStandup with
    start := { dateTime := some "2024-01-10T10:00:00Z", date := none
               timeZone := some "UTC" } }

/-- The target dictionary holding exactly the previously-synced copy of
`sourceStandup`. -/
def targetDict : EventDict := buildEventDict [syncedTarget]

/-- A source event missing both `dateTime` and `date` on its start and
end (a malformed input). -/
def malformedEv : GEvent :=
  { id := some "m1", summary := some "Malformed"
    start := { dateTime := none, date := none, timeZone := none }
    end_ := { dateTime := none, date := none, timeZone := none }
    description := none, location := none }

/-- A well-formed source event following the malformed one in the plan. -/
def neighborEv : GEvent :=
  { id := some "n1", summary := some "Neighbor"
    start := { dateTime := some "2024-01-11T09:00:00Z", date := none
               timeZone := none }
    end_ := { dateTime := some "2024-01-11T10:00:00Z", date := none
              timeZone := none }
    description := none, location := none }

/-- A write oracle under which every remote call fails. -/
def alwaysFail : Nat → Bool := fun _ => false

/-- The event `syncedTarget` with a stored body differing from any fresh
description. -/
def bodiedTarget : OEvent :=
  { syncedTarget with
    body := some { contentType := "text", content := "old notes" } }

/-- The target dictionary holding `bodiedTarget`. -/
def bodiedDict : EventDict := buildEventDict [bodiedTarget]

/-- A timed event lying before the example window `[100, 100 + 30d]`. -/
def outsideEv : TimedEvent := { id := "x", start := 0 }

/-- Example event exhibiting an event-key collision: the separator
`'_'` occurs inside this event's id. -/
def collideA : GEvent :=
  { id := some "a_b", summary := some "A"
    start := { dateTime := some "c", date := none, timeZone := none }
    end_ := { dateTime := some "c", date := none, timeZone := none }
    description := none, location := none }

/-- Second event of the colliding pair: different id, different start
timestamp, same key `"a_b_c"`. -/
def collideB : GEvent :=
  { id := some "a", summary := some "B"
    start := { dateTime := some "b_c", date := none, timeZone := none }
    end_ := { dateTime := some "b_c", date := none, timeZone := none }
    description := none, location := none }

/-- A string whose characters do not include the key separator `'_'`. -/
def underscoreFree (s : String) : Prop := '_' ∉ s.data

instance (s : String) : Decidable (underscoreFree s) := by
  unfold underscoreFree
  infer_instance

/-- Splitting a list at a separator character absent from both prefixes
is unambiguous. -/
lemma append_sep_inj (l₁ : List Char) :
    ∀ (l₂ s₁ s₂ : List Char), '_' ∉ l₁ → '_' ∉ l₂ →
      l₁ ++ '_' :: s₁ = l₂ ++ '_' :: s₂ → l₁ = l₂ ∧ s₁ = s₂ := by
  induction l₁ with
  | nil =>
    intro l₂ s₁ s₂ _ h₂ h
    cases l₂ with
    | nil => simpa using h
    | cons c t =>
      simp only [List.nil_append, List.cons_append, List.cons.injEq] at h
      exact absurd (h.1 ▸ List.mem_cons_self c t) h₂
  | cons c t ih =>
    intro l₂ s₁ s₂ h₁ h₂ h
    cases l₂ with
    | nil =>
      simp only [List.cons_append, List.nil_append, List.cons.injEq] at h
      exact absurd (h.1 ▸ List.mem_cons_self '_' t) h₁
    | cons c₂ t₂ =>
      simp only [List.cons_append, List.cons.injEq] at h
      have h₁' : '_' ∉ t := fun hm => h₁ (List.mem_cons_of_mem c hm)
      have h₂' : '_' ∉ t₂ := fun hm => h₂ (List.mem_cons_of_mem c₂ hm)
      obtain ⟨ht, hs⟩ := ih t₂ s₁ s₂ h₁' h₂' h.2
      exact ⟨by rw [h.1, ht], hs⟩

/-- The character data of `a ++ "_" ++ b`. -/
lemma data_key_append (a b : String) :
    (a ++ "_" ++ b).data = a.data ++ '_' :: b.data := by
  simp [String.data_append]

/-- Keys built around the `'_'` separator are injective in both
components as long as the left component is separator-free. -/
lemma key_append_inj {a₁ a₂ b₁ b₂ : String}
    (h₁ : underscoreFree a₁) (h₂ : underscoreFree a₂)
    (h : a₁ ++ "_" ++ b₁ = a₂ ++ "_" ++ b₂) : a₁ = a₂ ∧ b₁ = b₂ := by
  have hd : a₁.data ++ '_' :: b₁.data = a₂.data ++ '_' :: b₂.data := by
    have := congrArg String.data h
    rwa [data_key_append, data_key_append] at this
  obtain ⟨ha, hb⟩ := append_sep_inj a₁.data a₂.data b₁.data b₂.data h₁ h₂ hd
  exact ⟨String.ext ha, String.ext hb⟩

/-- Appending distinct right components to the same prefix gives
distinct strings. -/
lemma key_append_ne_of_ne {a b₁ b₂ : String} (h : b₁ ≠ b₂) :
    a ++ "_" ++ b₁ ≠ a ++ "_" ++ b₂ := by
  intro he
  have hd := congrArg String.data he
  rw [data_key_append, data_key_append] at hd
  have := List.append_cancel_left hd
  exact h (String.ext (by simpa using this))

end GmailSync

namespace GmailSync

/-! ## Theorems -/

/-- C4: the outbound payload has subject from the title (placeholder
`'No Title'` when absent), start/end as dateTime+timeZone with timeZone
defaulting to `'UTC'` when absent, a text body present exactly when the
source event has a description, and a displayName location present
exactly when the source event has a location. -/
theorem payload_construction (e : GEvent) :
    ((e.summary = none → (buildPayload e).subject = "No Title") ∧
     (∀ t, e.summary = some t → (buildPayload e).subject = t)) ∧
    ((buildPayload e).start.dateTime = e.start.startValue ∧
     (buildPayload e).end_.dateTime = e.end_.startValue) ∧
    ((e.start.timeZone = none → (buildPayload e).start.timeZone = "UTC") ∧
     (∀ z, e.start.timeZone = some z → (buildPayload e).start.timeZone = z) ∧
     (e.end_.timeZone = none → (buildPayload e).end_.timeZone = "UTC") ∧
     (∀ z, e.end_.timeZone = some z → (buildPayload e).end_.timeZone = z)) ∧
    ((∀ d, e.description = some d →
        (buildPayload e).body = some { contentType := "text", content := d }) ∧
     ((buildPayload e).body = none ↔ e.description = none)) ∧
    ((∀ l, e.location = some l →
        (buildPayload e).location = some { displayName := l }) ∧
     ((buildPayload e).location = none ↔ e.location = none)) := by
  refine ⟨⟨fun h => ?_, fun t h => ?_⟩, ⟨rfl, rfl⟩,
    ⟨fun h => ?_, fun z h => ?_, fun h => ?_, fun z h => ?_⟩,
    ⟨fun d h => ?_, ?_⟩, ⟨fun l h => ?_, ?_⟩⟩ <;>
    simp [buildPayload, *]

/-- Witness for C4: the payload of a concrete titleless, timezoneless
event uses the placeholders. -/
theorem payload_construction_witness :
    (buildPayload
      { id := some "w", summary := none
        start := { dateTime := some "t0", date := none, timeZone := none }
        end_ := { dateTime := some "t1", date := none, timeZone := none }
        description := none, location := none }).subject = "No Title" :=
  (payload_construction _).1.1 rfl

/-- The Boolean `needs_update` test, as a proposition on the compared
fields. -/
lemma needs_update_eq_true_iff (t : OEvent) (s : String) (p : OPayload) :
    needs_update t s p = true ↔
      (t.subject ≠ s ∨
       some t.start.dateTime ≠ p.start.dateTime ∨
       some t.end_.dateTime ≠ p.end_.dateTime ∨
       (∃ pl, p.location = some pl ∧
          (t.location = none ∨
           ∃ el, t.location = some el ∧ el.displayName ≠ pl.displayName))) := by
  cases hp : p.location <;> cases ht : t.location <;>
    simp [needs_update, hp, ht] <;> tauto

/-- When every compared field matches, `needs_update` is false. -/
lemma needs_update_eq_false (t : OEvent) (s : String) (p : OPayload)
    (h₁ : t.subject = s)
    (h₂ : some t.start.dateTime = p.start.dateTime)
    (h₃ : some t.end_.dateTime = p.end_.dateTime)
    (h₄ : Option.map OLocation.displayName t.location =
            Option.map PLocation.displayName p.location ∨ p.location = none) :
    needs_update t s p = false := by
  cases hp : p.location with
  | none => simp [needs_update, hp, h₁, h₂, h₃]
  | some pl =>
    rcases h₄ with h₄ | h₄
    · rw [hp] at h₄
      cases ht : t.location with
      | none => rw [ht] at h₄; simp at h₄
      | some el =>
        rw [ht] at h₄
        simp only [Option.map, Option.some.injEq] at h₄
        simp [needs_update, hp, ht, h₁, h₂, h₃, h₄]
    · rw [hp] at h₄; simp at h₄

/-- With the key found and every compared field matching, the decision
is SKIP. -/
lemma decideEvent_skip (existing : EventDict) (e : GEvent) (t : OEvent)
    (hl : dictLookup existing (create_event_key e) = some t)
    (h₁ : t.subject = (buildPayload e).subject)
    (h₂ : some t.start.dateTime = (buildPayload e).start.dateTime)
    (h₃ : some t.end_.dateTime = (buildPayload e).end_.dateTime)
    (h₄ : Option.map OLocation.displayName t.location =
            Option.map PLocation.displayName (buildPayload e).location ∨
          (buildPayload e).location = none) :
    decideEvent existing e = SyncAction.skip := by
  have hs : (buildPayload e).subject = e.summary.getD "No Title" := rfl
  have hnu := needs_update_eq_false t (e.summary.getD "No Title")
    (buildPayload e) (hs ▸ h₁) h₂ h₃ h₄
  simp [decideEvent, hl, hnu]

/-- Key absent from the dictionary: the decision is CREATE. -/
lemma decideEvent_create (existing : EventDict) (e : GEvent)
    (h : dictLookup existing (create_event_key e) = none) :
    decideEvent existing e = SyncAction.create (buildPayload e) := by
  simp [decideEvent, h]

/-- Key found: the decision is the `needs_update` conditional. -/
lemma decideEvent_found (existing : EventDict) (e : GEvent) (t : OEvent)
    (hl : dictLookup existing (create_event_key e) = some t) :
    decideEvent existing e =
      if needs_update t (e.summary.getD "No Title") (buildPayload e)
      then SyncAction.update t.id (buildPayload e)
      else SyncAction.skip := by
  simp [decideEvent, hl]

/-- Testing `needs_update` against the payload's own subject is exactly
`UpdateTrigger`. -/
lemma needs_update_iff_trigger (t : OEvent) (e : GEvent) :
    needs_update t (e.summary.getD "No Title") (buildPayload e) = true ↔
      UpdateTrigger t (buildPayload e) :=
  needs_update_eq_true_iff t (e.summary.getD "No Title") (buildPayload e)

/-- The sync loop from any position keeps one result per event. -/
lemma runSyncFrom_length (existing : EventDict) (w : Nat → Bool) :
    ∀ (i : Nat) (events : List GEvent),
      (runSyncFrom existing w i events).length = events.length := by
  intro i events
  induction events generalizing i with
  | nil => rfl
  | cons e rest ih => simp [runSyncFrom, ih]

/-- The sync loop keeps one result per event. -/
lemma runSync_length (existing : EventDict) (events : List GEvent)
    (w : Nat → Bool) : (runSync existing events w).length = events.length :=
  runSyncFrom_length existing w 0 events

/-- The result at position `j` of the sync loop is computed from the
event at position `j` and the oracle at the call's own position
alone. -/
lemma runSyncFrom_getElem? (existing : EventDict) (w : Nat → Bool) :
    ∀ (i j : Nat) (events : List GEvent),
      (runSyncFrom existing w i events)[j]? =
        (events[j]?).map fun e =>
          (decideEvent existing e,
           attemptWrite (decideEvent existing e) (w (i + j))) := by
  intro i j events
  induction events generalizing i j with
  | nil => simp [runSyncFrom]
  | cons e rest ih =>
    cases j with
    | zero => simp [runSyncFrom]
    | succ j' =>
      have harith : i + 1 + j' = i + (j' + 1) := by omega
      simp [runSyncFrom, ih (i + 1) j', harith]

/-- Every result of the sync loop comes from one of the events, carries
that event's decision, and records a successful (vacuous) write when
the decision was SKIP. -/
lemma runSyncFrom_mem (existing : EventDict) (w : Nat → Bool) :
    ∀ (i : Nat) (events : List GEvent) (r : SyncAction × Bool),
      r ∈ runSyncFrom existing w i events →
      ∃ e ∈ events, r.1 = decideEvent existing e ∧
        (decideEvent existing e = SyncAction.skip → r.2 = true) := by
  intro i events
  induction events generalizing i with
  | nil => intro r hr; simp [runSyncFrom] at hr
  | cons e rest ih =>
    intro r hr
    rcases List.mem_cons.mp hr with hr | hr
    · refine ⟨e, List.mem_cons_self e rest, by rw [hr], fun hs => ?_⟩
      rw [hr]
      simp [attemptWrite, hs]
    · obtain ⟨e', he', h₁, h₂⟩ := ih (i + 1) r hr
      exact ⟨e', List.mem_cons_of_mem e he', h₁, h₂⟩

/-- C2, counterexample: a target dictionary reflecting a prior sync of
`sourceStandup`; changing only the source event's start timestamp does
not produce an UPDATE — the start is part of the event key, so the
changed event's key is absent and the decision is CREATE. -/
theorem start_change_yields_create :
    decideEvent targetDict sourceStandup = SyncAction.skip ∧
    movedStandup.id = sourceStandup.id ∧
    movedStandup.summary = sourceStandup.summary ∧
    movedStandup.end_ = sourceStandup.end_ ∧
    movedStandup.location = sourceStandup.location ∧
    movedStandup.start.startValue ≠ sourceStandup.start.startValue ∧
    decideEvent targetDict movedStandup =
      SyncAction.create (buildPayload movedStandup) ∧
    (decideEvent targetDict movedStandup).isUpdate = false := by
  decide

/-- C2 (amended): key absent → CREATE; key present → UPDATE addressed
to the existing event's id exactly when subject, start `dateTime`, end
`dateTime`, or (payload-present) location differ, SKIP when all equal;
changing the title, the end timestamp, or the location of a source
event whose key is found produces an UPDATE carrying the new payload;
changing the start timestamp changes the event key itself, so it
produces a CREATE (when the new key is absent), not an UPDATE. -/
theorem reconciler_decision_rule :
    (∀ (existing : EventDict) (e : GEvent),
       dictLookup existing (create_event_key e) = none →
       decideEvent existing e = SyncAction.create (buildPayload e)) ∧
    (∀ (existing : EventDict) (e : GEvent) (t : OEvent),
       dictLookup existing (create_event_key e) = some t →
       ((decideEvent existing e = SyncAction.update t.id (buildPayload e) ↔
           UpdateTrigger t (buildPayload e)) ∧
        (decideEvent existing e = SyncAction.skip ↔
           ¬UpdateTrigger t (buildPayload e)))) ∧
    (∀ (existing : EventDict) (e : GEvent) (t : OEvent) (s' : String),
       dictLookup existing (create_event_key e) = some t →
       t.subject ≠ s' →
       decideEvent existing { e with summary := some s' } =
         SyncAction.update t.id (buildPayload { e with summary := some s' })) ∧
    (∀ (existing : EventDict) (e : GEvent) (t : OEvent) (nt : GTime),
       dictLookup existing (create_event_key e) = some t →
       some t.end_.dateTime ≠ nt.startValue →
       decideEvent existing { e with end_ := nt } =
         SyncAction.update t.id (buildPayload { e with end_ := nt })) ∧
    (∀ (existing : EventDict) (e : GEvent) (t : OEvent) (l : String),
       dictLookup existing (create_event_key e) = some t →
       Option.map OLocation.displayName t.location ≠ some l →
       decideEvent existing { e with location := some l } =
         SyncAction.update t.id (buildPayload { e with location := some l })) ∧
    (∀ (existing : EventDict) (e : GEvent) (st : GTime),
       pyStr st.startValue ≠ pyStr e.start.startValue →
       create_event_key { e with start := st } ≠ create_event_key e ∧
       (dictLookup existing (create_event_key { e with start := st }) = none →
        decideEvent existing { e with start := st } =
          SyncAction.create (buildPayload { e with start := st }))) := by
  refine ⟨fun existing e h => decideEvent_create existing e h,
    fun existing e t hl => ?_,
    fun existing e t s' hl hs => ?_,
    fun existing e t nt hl hn => ?_,
    fun existing e t l hl hn => ?_,
    fun existing e st hst => ?_⟩
  · rw [decideEvent_found existing e t hl]
    by_cases hb : needs_update t (e.summary.getD "No Title") (buildPayload e) = true
    · rw [if_pos hb]
      refine ⟨iff_of_true rfl ((needs_update_iff_trigger t e).mp hb), ?_⟩
      exact iff_of_false (by simp) fun hn => hn ((needs_update_iff_trigger t e).mp hb)
    · rw [if_neg hb]
      refine ⟨iff_of_false (by simp) fun hc => hb ((needs_update_iff_trigger t e).mpr hc), ?_⟩
      exact iff_of_true rfl fun hc => hb ((needs_update_iff_trigger t e).mpr hc)
  · have hl' : dictLookup existing
        (create_event_key { e with summary := some s' }) = some t := hl
    have hb : needs_update t
        (({ e with summary := some s' } : GEvent).summary.getD "No Title")
        (buildPayload { e with summary := some s' }) = true := by
      rw [needs_update_iff_trigger t { e with summary := some s' }]
      exact Or.inl hs
    rw [decideEvent_found existing _ t hl', if_pos hb]
  · have hl' : dictLookup existing
        (create_event_key { e with end_ := nt }) = some t := hl
    have hb : needs_update t
        (({ e with end_ := nt } : GEvent).summary.getD "No Title")
        (buildPayload { e with end_ := nt }) = true := by
      rw [needs_update_iff_trigger t { e with end_ := nt }]
      exact Or.inr (Or.inr (Or.inl hn))
    rw [decideEvent_found existing _ t hl', if_pos hb]
  · have hl' : dictLookup existing
        (create_event_key { e with location := some l }) = some t := hl
    have hb : needs_update t
        (({ e with location := some l } : GEvent).summary.getD "No Title")
        (buildPayload { e with location := some l }) = true := by
      rw [needs_update_iff_trigger t { e with location := some l }]
      refine Or.inr (Or.inr (Or.inr ⟨{ displayName := l }, rfl, ?_⟩))
      cases ht : t.location with
      | none => exact Or.inl rfl
      | some el =>
        refine Or.inr ⟨el, rfl, fun hd => ?_⟩
        rw [ht] at hn
        exact hn (by simp [hd])
    rw [decideEvent_found existing _ t hl', if_pos hb]
  · have hkey : create_event_key { e with start := st } =
        (e.id.getD "") ++ "_" ++ pyStr st.startValue := rfl
    have hkey' : create_event_key e =
        (e.id.getD "") ++ "_" ++ pyStr e.start.startValue := rfl
    refine ⟨?_, fun h => decideEvent_create existing _ h⟩
    rw [hkey, hkey']
    exact key_append_ne_of_ne hst

/-- Witness for C2 (amended): for the concrete synced state, a changed
title produces an UPDATE addressed to the stored event's id and
carrying the new subject. -/
theorem reconciler_decision_rule_witness :
    decideEvent targetDict { sourceStandup with summary := some "Standup (remote)" } =
      SyncAction.update syncedTarget.id
        (buildPayload { sourceStandup with summary := some "Standup (remote)" }) :=
  reconciler_decision_rule.2.2.1 targetDict sourceStandup syncedTarget
    "Standup (remote)" (by decide) (by decide)

/-- C3, counterexample: two events whose remote ids differ and whose
start timestamps differ, yet whose event keys coincide (the id may
contain the `'_'` separator, so the key format is not injective). -/
theorem create_event_key_not_injective :
    create_event_key collideA = create_event_key collideB ∧
    collideA.id ≠ collideB.id ∧
    collideA.start.dateTime ≠ collideB.start.dateTime ∧
    collideA.start.startValue ≠ collideB.start.startValue := by
  refine ⟨rfl, by decide, by decide, by decide⟩

/-- C3 (amended): `EventKey(e)` is the string
`{remote_id}_{start_timestamp}` (id defaulting to `''`, a missing
timestamp rendering as `'None'`), a pure function of the remote id and
the start timestamp; two keys are guaranteed unequal when the rendered
components are not both equal, provided neither id contains the
separator `'_'` — without that proviso distinct (id, start) pairs can
collide. -/
theorem create_event_key_stability :
    (∀ e : GEvent,
       create_event_key e = (e.id.getD "") ++ "_" ++ pyStr e.start.startValue) ∧
    (∀ e₁ e₂ : GEvent, e₁.id = e₂.id → e₁.start.startValue = e₂.start.startValue →
       create_event_key e₁ = create_event_key e₂) ∧
    (∀ e₁ e₂ : GEvent,
       underscoreFree (e₁.id.getD "") → underscoreFree (e₂.id.getD "") →
       (e₁.id.getD "" ≠ e₂.id.getD "" ∨
        pyStr e₁.start.startValue ≠ pyStr e₂.start.startValue) →
       create_event_key e₁ ≠ create_event_key e₂) := by
  refine ⟨fun e => rfl, fun e₁ e₂ hid hst => ?_, fun e₁ e₂ h₁ h₂ hne hk => ?_⟩
  · simp [create_event_key, hid, hst]
  · obtain ⟨ha, hb⟩ := key_append_inj h₁ h₂ hk
    rcases hne with hne | hne
    · exact hne ha
    · exact hne hb

/-- C1: idempotence of the sync run — with a target dictionary that
already reflects a prior successful sync of the source list (each event
found under its key with equal subject, start `dateTime`, end
`dateTime`, and location), re-running yields only SKIP actions, and no
POST or PATCH call is issued for any event. -/
theorem sync_idempotence (existing : EventDict) (events : List GEvent)
    (h : ∀ e ∈ events, ∃ t,
       dictLookup existing (create_event_key e) = some t ∧
       t.subject = (buildPayload e).subject ∧
       some t.start.dateTime = (buildPayload e).start.dateTime ∧
       some t.end_.dateTime = (buildPayload e).end_.dateTime ∧
       Option.map OLocation.displayName t.location =
         Option.map PLocation.displayName (buildPayload e).location) :
    ∀ (w : Nat → Bool), ∀ r ∈ runSync existing events w,
      r.1 = SyncAction.skip ∧ r.2 = true := by
  intro w r hr
  obtain ⟨e, he, h₁, h₂⟩ := runSyncFrom_mem existing w 0 events r hr
  obtain ⟨t, hl, hs, hst, hen, hloc⟩ := h e he
  have hskip := decideEvent_skip existing e t hl hs hst hen (Or.inl hloc)
  exact ⟨h₁.trans hskip, h₂ hskip⟩

/-- Witness for C1: the concrete synced state of the §8 scenario
re-runs to a single SKIP with no write attempted. -/
theorem sync_idempotence_witness :
    (runSync targetDict [sourceStandup] alwaysFail).head? =
      some (SyncAction.skip, true) := by
  have hyp : ∀ e ∈ [sourceStandup], ∃ t,
      dictLookup targetDict (create_event_key e) = some t ∧
      t.subject = (buildPayload e).subject ∧
      some t.start.dateTime = (buildPayload e).start.dateTime ∧
      some t.end_.dateTime = (buildPayload e).end_.dateTime ∧
      Option.map OLocation.displayName t.location =
        Option.map PLocation.displayName (buildPayload e).location := by
    intro e he
    rw [List.mem_singleton] at he
    subst he
    exact ⟨syncedTarget, by decide, by decide, by decide, by decide, by decide⟩
  have hmem : (decideEvent targetDict sourceStandup,
      attemptWrite (decideEvent targetDict sourceStandup) (alwaysFail 0)) ∈
      runSync targetDict [sourceStandup] alwaysFail :=
    List.mem_cons_self _ _
  have hr := sync_idempotence targetDict [sourceStandup] hyp alwaysFail _ hmem
  have : (decideEvent targetDict sourceStandup,
      attemptWrite (decideEvent targetDict sourceStandup) (alwaysFail 0)) =
      ((SyncAction.skip : SyncAction), true) := Prod.ext hr.1 hr.2
  simpa [runSync, runSyncFrom] using congrArg some this

/-- C5: on a failed destination read, `get_existing_events` returns the
empty mapping rather than raising; reconciling against it assigns
CREATE to every source event, and the run still produces one result per
event. -/
theorem destination_read_failure_all_create :
    ∀ (msg : String) (e : GEvent) (events : List GEvent) (w : Nat → Bool),
      get_existing_events (Except.error msg) = [] ∧
      decideEvent (get_existing_events (Except.error msg)) e =
        SyncAction.create (buildPayload e) ∧
      (runSync (get_existing_events (Except.error msg)) events w).length =
        events.length := by
  intro msg e events w
  exact ⟨rfl, decideEvent_create _ e rfl, runSync_length _ events w⟩

/-- C6, counterexample: a source event missing both `dateTime` and
`date` is not skipped — the reconciler emits a CREATE action for it,
with a `None` start timestamp in the payload; subsequent events are
still processed even when every write fails. -/
theorem malformed_event_emits_create :
    decideEvent ([] : EventDict) malformedEv =
      SyncAction.create (buildPayload malformedEv) ∧
    (buildPayload malformedEv).start.dateTime = none ∧
    (decideEvent ([] : EventDict) malformedEv).isCreate = true ∧
    (runSync ([] : EventDict) [malformedEv, neighborEv] alwaysFail).length = 2 ∧
    (runSync ([] : EventDict) [malformedEv, neighborEv] alwaysFail)[1]? =
      some (SyncAction.create (buildPayload neighborEv), false) := by
  decide

/-- C6 (amended): an event missing both `dateTime` and `date` is not
rejected locally — its key renders the missing timestamp as `'None'`
and the reconciler still emits an action for it (CREATE with a `None`
start `dateTime` when the key is absent); only the remote write can
fail, and the loop still produces one result per event rather than
aborting. -/
theorem malformed_event_policy :
    (∀ (existing : EventDict) (e : GEvent),
       e.start.dateTime = none → e.start.date = none →
       (buildPayload e).start.dateTime = none ∧
       create_event_key e = (e.id.getD "") ++ "_" ++ "None" ∧
       (dictLookup existing (create_event_key e) = none →
         decideEvent existing e = SyncAction.create (buildPayload e))) ∧
    (∀ (existing : EventDict) (events : List GEvent) (w : Nat → Bool),
       (runSync existing events w).length = events.length) := by
  refine ⟨fun existing e h₁ h₂ =>
    ⟨?_, ?_, fun h => decideEvent_create existing e h⟩,
    fun existing events w => runSync_length existing events w⟩
  · simp [buildPayload, GTime.startValue, h₁, h₂]
  · simp [create_event_key, GTime.startValue, pyStr, h₁, h₂]

/-- Witness for C6 (amended): the concrete malformed event gets a
CREATE with a `None` start timestamp. -/
theorem malformed_event_policy_witness :
    (buildPayload malformedEv).start.dateTime = none ∧
    create_event_key malformedEv = (malformedEv.id.getD "") ++ "_" ++ "None" ∧
    decideEvent ([] : EventDict) malformedEv =
      SyncAction.create (buildPayload malformedEv) := by
  obtain ⟨h₁, h₂, h₃⟩ := malformed_event_policy.1 ([] : EventDict) malformedEv rfl rfl
  exact ⟨h₁, h₂, h₃ rfl⟩

/-- C7: write-failure isolation — the plan always yields one result per
event, and the result at position `i` is computed from the event at
position `i` and the success of its own single call alone, so a failed
write for one event never affects the processing of any other. -/
theorem write_failure_isolation :
    ∀ (existing : EventDict) (events : List GEvent) (w : Nat → Bool)
      (i : Nat) (e : GEvent), events[i]? = some e →
      (runSync existing events w).length = events.length ∧
      (runSync existing events w)[i]? =
        some (decideEvent existing e,
              attemptWrite (decideEvent existing e) (w i)) ∧
      ∀ w' : Nat → Bool, w' i = w i →
        (runSync existing events w')[i]? = (runSync existing events w)[i]? := by
  intro existing events w i e he
  refine ⟨runSync_length existing events w, ?_, fun w' hw => ?_⟩
  · rw [runSync, runSyncFrom_getElem? existing w 0 i events, he]
    simp
  · simp only [runSync]
    rw [runSyncFrom_getElem? existing w' 0 i events,
        runSyncFrom_getElem? existing w 0 i events, he]
    simp [hw]

/-- Witness for C7: the concrete one-event plan with a failing write
still yields its one result. -/
theorem write_failure_isolation_witness :
    (runSync ([] : EventDict) [neighborEv] alwaysFail).length = 1 ∧
    (runSync ([] : EventDict) [neighborEv] alwaysFail)[0]? =
      some (decideEvent ([] : EventDict) neighborEv,
            attemptWrite (decideEvent ([] : EventDict) neighborEv)
              (alwaysFail 0)) :=
  ⟨(write_failure_isolation ([] : EventDict) [neighborEv] alwaysFail 0
      neighborEv rfl).1,
   (write_failure_isolation ([] : EventDict) [neighborEv] alwaysFail 0
      neighborEv rfl).2.1⟩

/-- Membership in the keyed fold that builds the target dictionary. -/
lemma mem_keyed_fold (l : List TimedEvent) :
    ∀ (acc : List (String × TimedEvent)) (p : String × TimedEvent),
      p ∈ l.foldl (fun m e => (e.id ++ "_" ++ toString e.start, e) :: m) acc →
      p ∈ acc ∨ ∃ e ∈ l, p = (e.id ++ "_" ++ toString e.start, e) := by
  induction l with
  | nil => intro acc p hp; exact Or.inl hp
  | cons e rest ih =>
    intro acc p hp
    rcases ih _ p hp with h | h
    · rcases List.mem_cons.mp h with h | h
      · exact Or.inr ⟨e, List.mem_cons_self e rest, h⟩
      · exact Or.inl h
    · obtain ⟨e', he', hpe⟩ := h
      exact Or.inr ⟨e', List.mem_cons_of_mem e he', hpe⟩

/-- C8: window filtering — an event whose start lies strictly outside
the inclusive window `[now, now + 30 days]` computed at the start of
the run is present neither in the Source Reader's output list nor in
the Target Reader's output mapping. -/
theorem window_filtering :
    ∀ (store : List TimedEvent) (now : Nat) (e : TimedEvent),
      e.start < now ∨ now + thirtyDays < e.start →
      e ∉ source_reader store now ∧
      ∀ p ∈ target_reader store now, p.2 ≠ e := by
  intro store now e hout
  constructor
  · intro hmem
    rw [source_reader, eventsListRequest] at hmem
    have hcond := (List.mem_filter.mp hmem).2
    simp only [syncWindow, Bool.and_eq_true, decide_eq_true_eq] at hcond
    omega
  · intro p hp hpe
    rcases mem_keyed_fold _ _ p hp with h | h
    · simp at h
    · obtain ⟨e', he', hpe'⟩ := h
      rw [graphEventsRequest] at he'
      have hcond := (List.mem_filter.mp he').2
      simp only [syncWindow, Bool.and_eq_true, decide_eq_true_eq] at hcond
      have he'e : e' = e := by rw [hpe'] at hpe; exact hpe
      rw [he'e] at hcond
      omega

/-- Witness for C8: a concrete event starting before the window is
absent from the source reader's output. -/
theorem window_filtering_witness :
    outsideEv ∉ source_reader [outsideEv] 100 :=
  (window_filtering [outsideEv] 100 outsideEv (Or.inl (by decide))).1

/-- C9: configuration fallback — an absent or unparsable `config.json`
yields the empty-string defaults without aborting; a parsed file yields
each key's value, or the empty string for a missing key. -/
theorem config_fallback :
    (load_config ConfigFile.absent = ("", "")) ∧
    (load_config ConfigFile.unparsable = ("", "")) ∧
    (∀ (g o : Option String) (gv : String), g = some gv →
       (load_config (ConfigFile.parsed g o)).1 = gv) ∧
    (∀ o : Option String, (load_config (ConfigFile.parsed none o)).1 = "") ∧
    (∀ (g o : Option String) (ov : String), o = some ov →
       (load_config (ConfigFile.parsed g o)).2 = ov) ∧
    (∀ g : Option String, (load_config (ConfigFile.parsed g none)).2 = "") := by
  refine ⟨rfl, rfl, fun g o gv hg => ?_, fun o => rfl,
    fun g o ov ho => ?_, fun g => rfl⟩
  · subst hg; rfl
  · subst ho; rfl

/-- Witness for C9: a parsed file with a concrete `gmail_email` key
prefills that value. -/
theorem config_fallback_witness :
    (load_config (ConfigFile.parsed (some "user@gmail.com") none)).1 =
      "user@gmail.com" :=
  config_fallback.2.2.1 (some "user@gmail.com") none "user@gmail.com" rfl

/-- C10: a description-only change never triggers an update — with the
key found and subject, start, end, and (payload-present) location all
matching, the decision is SKIP for every value of the source event's
description, regardless of the stored body. -/
theorem description_change_never_updates
    (existing : EventDict) (e : GEvent) (t : OEvent)
    (hl : dictLookup existing (create_event_key e) = some t)
    (h₁ : t.subject = (buildPayload e).subject)
    (h₂ : some t.start.dateTime = (buildPayload e).start.dateTime)
    (h₃ : some t.end_.dateTime = (buildPayload e).end_.dateTime)
    (h₄ : (buildPayload e).location = none ∨
          ∃ pl el, (buildPayload e).location = some pl ∧
            t.location = some el ∧ el.displayName = pl.displayName) :
    ∀ d : Option String,
      decideEvent existing { e with description := d } = SyncAction.skip := by
  intro d
  have h₄' : Option.map OLocation.displayName t.location =
      Option.map PLocation.displayName
        (buildPayload { e with description := d }).location ∨
      (buildPayload { e with description := d }).location = none := by
    rcases h₄ with h₄ | h₄
    · exact Or.inr h₄
    · obtain ⟨pl, el, hpl, hel, hd⟩ := h₄
      refine Or.inl ?_
      have hpl' : (buildPayload { e with description := d }).location =
          some pl := hpl
      rw [hpl', hel]
      simp [hd]
  exact decideEvent_skip existing { e with description := d } t hl h₁ h₂ h₃ h₄'

/-- Witness for C10: the stored body `"old notes"` and the fresh
description `"new notes"` differ, yet the decision is SKIP. -/
theorem description_change_never_updates_witness :
    decideEvent bodiedDict
      { sourceStandup with description := some "new notes" } =
      SyncAction.skip :=
  description_change_never_updates bodiedDict sourceStandup bodiedTarget
    (by decide) (by decide) (by decide) (by decide) (Or.inl (by decide))
    (some "new notes")

/-- Witness for C3 (amended): two concrete events with underscore-free
ids and different start timestamps have different keys. -/
theorem create_event_key_stability_witness :
    create_event_key
      { id := some "a", summary := none
        start := { dateTime := some "s1", date := none, timeZone := none }
        end_ := { dateTime := none, date := none, timeZone := none }
        description := none, location := none } ≠
    create_event_key
      { id := some "a", summary := none
        start := { dateTime := some "s2", date := none, timeZone := none }
        end_ := { dateTime := none, date := none, timeZone := none }
        description := none, location := none } :=
  create_event_key_stability.2.2 _ _ (by decide) (by decide)
    (Or.inr (by decide))

end GmailSync
